import Mathlib

/-!
Verification development for the Rag-ChatBot repository.

Shallow embedding of the retrieval-and-grounding pipeline:
  - `config/config.py` default settings are embedded as constants;
  - Python strings are modelled as Lean `String` (a sequence of code points,
    matching Python `str` indexing/slicing/length semantics);
  - Python floats (similarity scores, temperature, top_p) are modelled as `ℚ`:
    the code only compares and stores them, no float rounding is involved;
  - a langchain `Document` is a structure with `page_content` and `metadata`;
    the code reads only the "source" key of the metadata dict, so metadata is
    modelled as an association list of string pairs with `dict.get` semantics;
  - external I/O (the Chroma backend query, the HuggingFace pipeline) is
    modelled as function parameters supplied to the embedded methods;
  - Python truthiness in `x or default` is modelled explicitly (`None` and
    zero are falsy for optional ints/floats, the empty string and the empty
    list are falsy in conditions).
-/

/-- Default of `RETRIEVAL_TOP_K` in `config/config.py`. -/
def RETRIEVAL_TOP_K : Int := 5

/-- Default of `SIMILARITY_THRESHOLD` in `config/config.py`. -/
def SIMILARITY_THRESHOLD : ℚ := 7/10

/-- Default of `LLM_TEMPERATURE` in `config/config.py`. -/
def LLM_TEMPERATURE : ℚ := 7/10

/-- Default of `LLM_MAX_TOKENS` in `config/config.py`. -/
def LLM_MAX_TOKENS : Int := 512

/-- Default of `LLM_TOP_P` in `config/config.py`. -/
def LLM_TOP_P : ℚ := 9/10

/-- A langchain `Document`: `page_content` plus a metadata dict.  The code
under verification reads only string-valued metadata entries (the "source"
key), so the dict is modelled as an association list of string pairs. -/
structure Document where
  page_content : String
  metadata : List (String × String)
deriving DecidableEq

/-- Python `doc.metadata.get(key, default)`. -/
def Document.metadataGet (d : Document) (key dflt : String) : String :=
  match d.metadata.lookup key with
  | some v => v
  | none => dflt

/-- Python `str.strip()`: remove leading and trailing whitespace. -/
def pyStrip (s : String) : String :=
  ⟨((s.data.dropWhile Char.isWhitespace).reverse.dropWhile Char.isWhitespace).reverse⟩

/-- Python `s[:n]`: the first `n` characters (code points) of `s`. -/
def pySlice (s : String) (n : Nat) : String :=
  ⟨s.data.take n⟩

/-- Python `x or dflt` for an optional int: `None` and `0` are falsy. -/
def pyOrInt (x : Option Int) (dflt : Int) : Int :=
  match x with
  | none => dflt
  | some v => if v = 0 then dflt else v

/-- Python `str.lower()`: lowercase every character. -/
def pyLower (s : String) : String :=
  ⟨s.data.map Char.toLower⟩

/-- Python `x or dflt` for an optional float: `None` and `0.0` are falsy. -/
def pyOrRat (x : Option ℚ) (dflt : ℚ) : ℚ :=
  match x with
  | none => dflt
  | some v => if v = 0 then dflt else v

/-- The filtering step of `RAGChain.retrieve_context`
(`src/rag/rag_chain.py` lines 53-56): the Python list comprehension
`[doc for doc, score in results if score >= threshold]` applied to the
`(document, score)` pairs returned by `similarity_search_with_score`.
The configured `settings.SIMILARITY_THRESHOLD` is passed as `threshold`. -/
def RAGChain.retrieve_context (results : List (Document × ℚ)) (threshold : ℚ) :
    List Document :=
  match results with
  | [] => []
  | (doc, score) :: rest =>
    if score ≥ threshold then doc :: RAGChain.retrieve_context rest threshold
    else RAGChain.retrieve_context rest threshold

/-- One labeled context block built by the loop body of
`RAGChain.format_context` (`src/rag/rag_chain.py` lines 75-78):
`f"[Source {i}: {source}]\n{content}"` with `source = doc.metadata.get("source", "Unknown")`
and `content = doc.page_content.strip()`. -/
def contextBlock (i : Nat) (d : Document) : String :=
  "[Source " ++ toString i ++ ": " ++ d.metadataGet "source" "Unknown" ++ "]\n"
    ++ pyStrip d.page_content

/-- The `context_parts` list accumulated by `RAGChain.format_context`:
`enumerate(documents, 1)` pairs each document with its 1-based index. -/
def contextParts : List Document → Nat → List String
  | [], _ => []
  | d :: ds, i => contextBlock i d :: contextParts ds (i + 1)

/-- Python `sep.join(parts)`. -/
def joinSep (sep : String) : List String → String
  | [] => ""
  | [s] => s
  | s :: rest => s ++ sep ++ joinSep sep rest

/-- `RAGChain.format_context` (`src/rag/rag_chain.py` lines 69-80). -/
def RAGChain.format_context (documents : List Document) : String :=
  if documents = [] then
    "No relevant information found in the course materials."
  else
    joinSep "\n\n" (contextParts documents 1)

/-- One entry of the `sources` list assembled by `RAGChain.query`. -/
structure SourceItem where
  source : String
  content : String
deriving DecidableEq

/-- The per-document dict built by the list comprehension in `RAGChain.query`
(`src/rag/rag_chain.py` lines 141-149): the source name from metadata and the
content truncated to 200 characters with `"..."` appended when longer. -/
def RAGChain.sourceEntry (doc : Document) : SourceItem :=
  { source := doc.metadataGet "source" "Unknown"
    content :=
      if doc.page_content.length > 200 then pySlice doc.page_content 200 ++ "..."
      else doc.page_content }

/-- The instance state of `LLMHandler` (`src/llm/llm_handler.py` lines 11-15):
the generation defaults loaded from settings at construction time. -/
structure LLMHandler where
  max_tokens : Int
  temperature : ℚ
  top_p : ℚ
deriving DecidableEq

/-- The keyword arguments passed to the text-generation pipeline by
`LLMHandler.generate_response` (`src/llm/llm_handler.py` lines 69-74). -/
structure GenerationKwargs where
  max_new_tokens : Int
  temperature : ℚ
  top_p : ℚ
  do_sample : Bool
deriving DecidableEq

/-- The `generation_kwargs` dict built inside `LLMHandler.generate_response`:
`max_tokens or self.max_tokens`, `temperature or self.temperature`,
`self.top_p`, `do_sample=True`. -/
def LLMHandler.generation_kwargs (h : LLMHandler) (max_tokens : Option Int)
    (temperature : Option ℚ) : GenerationKwargs :=
  { max_new_tokens := pyOrInt max_tokens h.max_tokens
    temperature := pyOrRat temperature h.temperature
    top_p := h.top_p
    do_sample := true }

/-- `LLMHandler.generate_response` (`src/llm/llm_handler.py` lines 61-86).
The HuggingFace pipeline invocation is external I/O and is modelled by the
`pipe` parameter.  The method mutates no instance attribute, which the
embedding makes explicit by returning the (unchanged) handler state. -/
def LLMHandler.generate_response (h : LLMHandler)
    (pipe : String → GenerationKwargs → String) (prompt : String)
    (max_tokens : Option Int) (temperature : Option ℚ) : String × LLMHandler :=
  let generated_text := pipe prompt (h.generation_kwargs max_tokens temperature)
  let generated_text :=
    if prompt.isPrefixOf generated_text then
      pyStrip ⟨generated_text.data.drop prompt.data.length⟩
    else generated_text
  (generated_text, h)

/-- `LLMHandler.format_prompt` (`src/llm/llm_handler.py` lines 88-109).
Python `if context:` is string truthiness, i.e. `context ≠ ""`. -/
def LLMHandler.format_prompt (system_prompt user_message context : String) :
    String :=
  if context ≠ "" then
    "<|begin_of_text|><|start_header_id|>system<|end_header_id|>\n\n"
      ++ system_prompt ++ "\n\nContext:\n" ++ context
      ++ "<|eot_id|><|start_header_id|>user<|end_header_id|>\n\n"
      ++ user_message
      ++ "<|eot_id|><|start_header_id|>assistant<|end_header_id|>\n\n"
  else
    "<|begin_of_text|><|start_header_id|>system<|end_header_id|>\n\n"
      ++ system_prompt
      ++ "<|eot_id|><|start_header_id|>user<|end_header_id|>\n\n"
      ++ user_message
      ++ "<|eot_id|><|start_header_id|>assistant<|end_header_id|>\n\n"

/-- The fixed header of the system section of the Llama prompt template. -/
def promptSystemHeader : String :=
  "<|begin_of_text|><|start_header_id|>system<|end_header_id|>\n\n"

/-- The user-turn separator of the Llama prompt template. -/
def promptUserHeader : String :=
  "<|eot_id|><|start_header_id|>user<|end_header_id|>\n\n"

/-- The assistant-turn trailer of the Llama prompt template. -/
def promptAssistantHeader : String :=
  "<|eot_id|><|start_header_id|>assistant<|end_header_id|>\n\n"

/-- `RAGChain.generate_answer` (`src/rag/rag_chain.py` lines 82-107):
format the prompt and invoke the LLM. -/
def RAGChain.generate_answer (llm : LLMHandler)
    (pipe : String → GenerationKwargs → String)
    (system_prompt query context : String) (max_tokens : Option Int)
    (temperature : Option ℚ) : String × LLMHandler :=
  llm.generate_response pipe
    (LLMHandler.format_prompt system_prompt query context) max_tokens temperature

/-- The result dict of `RAGChain.query` (`src/rag/rag_chain.py` lines 151-156). -/
structure QueryResult where
  answer : String
  context : String
  sources : List SourceItem
  num_sources : Nat
deriving DecidableEq

/-- `RAGChain.query` (`src/rag/rag_chain.py` lines 109-159).  The vector-store
round trip is external I/O; its response, the scored result list of
`similarity_search_with_score`, is the `results` parameter, and the configured
`settings.SIMILARITY_THRESHOLD` is the `threshold` parameter. -/
def RAGChain.query (llm : LLMHandler)
    (pipe : String → GenerationKwargs → String)
    (system_prompt question : String) (results : List (Document × ℚ))
    (threshold : ℚ) (max_tokens : Option Int) (temperature : Option ℚ) :
    QueryResult :=
  let retrieved_docs := RAGChain.retrieve_context results threshold
  let context := RAGChain.format_context retrieved_docs
  let answer :=
    (RAGChain.generate_answer llm pipe system_prompt question context
      max_tokens temperature).1
  let sources := retrieved_docs.map RAGChain.sourceEntry
  { answer := answer
    context := context
    sources := sources
    num_sources := sources.length }

/-- The two vector-store backends constructible by the factory. -/
inductive VectorStoreKind
  | pinecone
  | chroma
deriving DecidableEq

/-- `VectorStoreFactory.create_vector_store` (`src/vector_store/factory.py`
lines 12-32): lowercase the configured `settings.VECTOR_STORE` string, return
the matching backend, and raise `ValueError` for anything else.  The raise is
the only statement of the fallback branch, so no store object is constructed
on the error path. -/
def VectorStoreFactory.create_vector_store (vectorStoreSetting : String) :
    Except String VectorStoreKind :=
  let vector_store_type := pyLower vectorStoreSetting
  if vector_store_type = "pinecone" then Except.ok VectorStoreKind.pinecone
  else if vector_store_type = "chroma" then Except.ok VectorStoreKind.chroma
  else
    Except.error ("Unsupported vector store type: " ++ vector_store_type
      ++ ". Supported types: pinecone, chroma")

/-- `ChromaVectorStore.similarity_search_with_score`
(`src/vector_store/chroma_store.py` lines 63-83): `k = k or settings.RETRIEVAL_TOP_K`,
then the underlying Chroma library query (external I/O, modelled by the
`backend` parameter) is invoked with that `k`.  No validation of `k` is
performed before the call. -/
def ChromaVectorStore.similarity_search_with_score
    (backend : Int → List (Document × ℚ)) (k : Option Int) :
    List (Document × ℚ) :=
  backend (pyOrInt k RETRIEVAL_TOP_K)

/-- The spec's error taxonomy (spec §7), as far as the claims below need it. -/
inductive RagError
  | invalidArgument
deriving DecidableEq

/-- Spec-side model of the `k` contract, for comparison with the source
(`kValidatedSpec` follows the spec's words in §4.2/§7, not the code):
`k` defaults to the configured top-K when unset; values `≤ 0` fail with
`InvalidArgument` synchronously before any I/O. -/
def kValidatedSpec (k : Option Int) : Except RagError Int :=
  match k with
  | none => Except.ok RETRIEVAL_TOP_K
  | some v => if v ≤ 0 then Except.error RagError.invalidArgument else Except.ok v

/-- Spec-side model of one context block (spec §4.5 step 3, written from the
spec's words): `"[Source {1-based-index}: {source}]\n{content}"` where the
spec's step 5 reads the source as `metadata.source or "Unknown"` and the
block content is the stripped page content established by the code. -/
def specContextBlock (i : Nat) (d : Document) : String :=
  "[Source " ++ toString i ++ ": " ++ (d.metadata.lookup "source").getD "Unknown"
    ++ "]\n" ++ pyStrip d.page_content

/-- Concrete sample document (the spec's §8 ingestion scenario). -/
def doc0 : Document :=
  { page_content := "Photosynthesis converts light into chemical energy."
    metadata := [("source", "bio101.txt")] }

/-- Concrete document whose content carries surrounding whitespace. -/
def docWs : Document :=
  { page_content := " strip me "
    metadata := [("source", "notes.txt")] }

/-- A second concrete document with surrounding whitespace. -/
def docWs2 : Document :=
  { page_content := " hello   world\n"
    metadata := [("source", "lecture.txt")] }

/-- Concrete scored result list whose single score lies below the default
similarity threshold. -/
def results0 : List (Document × ℚ) := [(doc0, 1/2)]

/-- Concrete backend stub: returns one scored match for any positive `k`. -/
def backend0 : Int → List (Document × ℚ) :=
  fun n => if 0 < n then [(doc0, 1)] else []

/-- Concrete LLM handler state carrying the configured defaults, as set by
`LLMHandler.__init__` from settings. -/
def llm0 : LLMHandler :=
  { max_tokens := LLM_MAX_TOKENS
    temperature := LLM_TEMPERATURE
    top_p := LLM_TOP_P }

/-- Concrete pipeline stub echoing its prompt with a fixed completion. -/
def pipe0 : String → GenerationKwargs → String :=
  fun prompt _ => prompt ++ "An answer."

/-! Helper lemmas shared by several claims. -/

theorem contextParts_enumFrom (docs : List Document) :
    ∀ i, contextParts docs i
      = (List.enumFrom i docs).map (fun p => contextBlock p.1 p.2) := by
  induction docs with
  | nil => intro i; rfl
  | cons d ds ih => intro i; simp [contextParts, List.enumFrom, ih]

theorem contextBlock_eq_specContextBlock (i : Nat) (d : Document) :
    contextBlock i d = specContextBlock i d := by
  unfold contextBlock specContextBlock Document.metadataGet
  cases d.metadata.lookup "source" <;> simp [Option.getD]

theorem contextBlock_data_head (i : Nat) (d : Document) :
    ∃ r, (contextBlock i d).data = '[' :: r := by
  refine ⟨"Source ".data ++ ((toString i).data ++ (": ".data
    ++ ((d.metadataGet "source" "Unknown").data
      ++ ("]\n".data ++ (pyStrip d.page_content).data)))), ?_⟩
  unfold contextBlock
  simp only [String.data_append, List.append_assoc]
  rfl

theorem format_context_cons_data_head (d : Document) (ds : List Document) :
    ∃ r, (RAGChain.format_context (d :: ds)).data = '[' :: r := by
  obtain ⟨r, hr⟩ := contextBlock_data_head 1 d
  unfold RAGChain.format_context
  rw [if_neg (by simp)]
  show ∃ s, (joinSep "\n\n" (contextBlock 1 d :: contextParts ds 2)).data = '[' :: s
  cases h : contextParts ds 2 with
  | nil => exact ⟨r, by simp [joinSep, hr]⟩
  | cons s rest =>
    refine ⟨r ++ ("\n\n".data ++ (joinSep "\n\n" (s :: rest)).data), ?_⟩
    show ((contextBlock 1 d ++ "\n\n") ++ joinSep "\n\n" (s :: rest)).data = _
    rw [String.data_append, String.data_append, hr]
    simp [List.append_assoc]

theorem format_context_cons_ne_noinfo (d : Document) (ds : List Document) :
    RAGChain.format_context (d :: ds)
      ≠ "No relevant information found in the course materials." := by
  intro h
  obtain ⟨r, hr⟩ := format_context_cons_data_head d ds
  rw [h] at hr
  rw [show ("No relevant information found in the course materials." : String).data
      = 'N' :: "o relevant information found in the course materials.".data from rfl] at hr
  exact absurd (List.cons.inj hr).1 (by decide)

/-- C1: for every scored result list and every similarity threshold `t`, the
filtered set computed by `RAGChain.retrieve_context` is exactly the matches
with score `≥ t`, in the original relative order (a sublist of the input
documents), and when every score is below `t` the function returns the empty
list as an ordinary value, not an error. -/
theorem retrieve_context_filters_by_threshold
    (results : List (Document × ℚ)) (t : ℚ) :
    RAGChain.retrieve_context results t
        = (results.filter (fun ds => t ≤ ds.2)).map Prod.fst
    ∧ (RAGChain.retrieve_context results t).Sublist (results.map Prod.fst)
    ∧ (∀ d, d ∈ RAGChain.retrieve_context results t
        ↔ ∃ s, (d, s) ∈ results ∧ t ≤ s)
    ∧ ((∀ ds ∈ results, ds.2 < t) → RAGChain.retrieve_context results t = []) := by
  have hfilter : RAGChain.retrieve_context results t
      = (results.filter (fun ds => t ≤ ds.2)).map Prod.fst := by
    induction results with
    | nil => rfl
    | cons p rest ih =>
      obtain ⟨d, s⟩ := p
      by_cases h : t ≤ s
      · simp [RAGChain.retrieve_context, ge_iff_le, h, List.filter_cons, ih]
      · simp [RAGChain.retrieve_context, ge_iff_le, h, List.filter_cons, ih]
  refine ⟨hfilter, ?_, ?_, ?_⟩
  · rw [hfilter]
    exact (List.filter_sublist results).map Prod.fst
  · intro d
    rw [hfilter]
    simp only [List.mem_map, List.mem_filter, decide_eq_true_eq]
    constructor
    · rintro ⟨⟨a, b⟩, ⟨hm, hle⟩, rfl⟩
      exact ⟨b, hm, hle⟩
    · rintro ⟨s, hm, hle⟩
      exact ⟨(d, s), ⟨hm, hle⟩, rfl⟩
  · intro h
    rw [hfilter]
    have : results.filter (fun ds => t ≤ ds.2) = [] := by
      rw [List.filter_eq_nil_iff]
      intro a ha
      simp only [decide_eq_true_eq]
      exact not_le.mpr (h a ha)
    rw [this]
    rfl

/-- C1 witness: the theorem instantiated at a concrete result list whose only
score lies below the threshold; the filtered set is empty and is returned
normally. -/
theorem retrieve_context_filters_by_threshold_witness :
    (∀ ds ∈ results0, ds.2 < (7/10 : ℚ))
    ∧ RAGChain.retrieve_context results0 (7/10) = [] := by
  have h : ∀ ds ∈ results0, ds.2 < (7/10 : ℚ) := by
    intro ds hds
    simp only [results0, List.mem_singleton] at hds
    subst hds
    norm_num
  exact ⟨h, (retrieve_context_filters_by_threshold results0 (7/10)).2.2.2 h⟩

/-- C2: for the empty retrieved-document list, `RAGChain.format_context`
returns exactly the literal no-information sentence and never the empty
string. -/
theorem format_context_empty_literal :
    RAGChain.format_context []
        = "No relevant information found in the course materials."
    ∧ RAGChain.format_context [] ≠ "" := by
  constructor
  · rfl
  · decide

/-- C3 counterexample: the claim requires each block to embed the document's
content verbatim after the newline, but `format_context` strips surrounding
whitespace; for a document whose content is " strip me " the produced block
carries "strip me", not the stored content. -/
theorem format_context_not_verbatim :
    RAGChain.format_context [docWs] = "[Source 1: notes.txt]\nstrip me"
    ∧ RAGChain.format_context [docWs]
        ≠ "[Source 1: notes.txt]\n" ++ docWs.page_content := by
  constructor
  · rfl
  · intro h
    have : ("[Source 1: notes.txt]\nstrip me" : String)
        = "[Source 1: notes.txt]\n" ++ docWs.page_content := by
      rw [← h]; rfl
    exact absurd (congrArg String.data this) (by decide)

/-- C3 amended: for every non-empty ordered list of documents,
`format_context` returns the blocks
`"[Source {1-based-index}: {source}]\n{content stripped of surrounding whitespace}"`
joined by a blank line, in list order (the spec-side block list is written
with `List.enumFrom`); formatting is deterministic since `format_context` is
a pure function of the ordered list. -/
theorem format_context_blocks (docs : List Document) (hne : docs ≠ []) :
    RAGChain.format_context docs
      = joinSep "\n\n"
          ((List.enumFrom 1 docs).map (fun p => specContextBlock p.1 p.2)) := by
  obtain ⟨d, ds, rfl⟩ := List.exists_cons_of_ne_nil hne
  unfold RAGChain.format_context
  rw [if_neg (by simp), contextParts_enumFrom]
  congr 1
  apply List.map_congr_left
  intro p _
  exact contextBlock_eq_specContextBlock p.1 p.2

/-- C3 amended witness: the amended theorem applied to a concrete two-element
document list. -/
theorem format_context_blocks_witness :
    ([doc0, docWs] : List Document) ≠ []
    ∧ RAGChain.format_context [doc0, docWs]
        = joinSep "\n\n"
            ((List.enumFrom 1 [doc0, docWs]).map (fun p => specContextBlock p.1 p.2)) :=
  ⟨by decide, format_context_blocks [doc0, docWs] (by decide)⟩

/-- C10: `format_context` embeds each document's content with leading and
trailing whitespace stripped, never the raw content: whenever stripping
changes the content, the one-document context differs from the label followed
by the stored content, and equals the label followed by the stripped
content. -/
theorem format_context_strips_content (d : Document)
    (hd : pyStrip d.page_content ≠ d.page_content) :
    RAGChain.format_context [d]
        = "[Source 1: " ++ d.metadataGet "source" "Unknown" ++ "]\n"
            ++ pyStrip d.page_content
    ∧ RAGChain.format_context [d]
        ≠ "[Source 1: " ++ d.metadataGet "source" "Unknown" ++ "]\n"
            ++ d.page_content := by
  have heq : RAGChain.format_context [d]
      = "[Source 1: " ++ d.metadataGet "source" "Unknown" ++ "]\n"
          ++ pyStrip d.page_content := rfl
  refine ⟨heq, ?_⟩
  intro h
  apply hd
  have hcat : ("[Source 1: " ++ d.metadataGet "source" "Unknown" ++ "]\n")
        ++ pyStrip d.page_content
      = ("[Source 1: " ++ d.metadataGet "source" "Unknown" ++ "]\n")
        ++ d.page_content := heq.symm.trans h
  have hdata := congrArg String.data hcat
  rw [String.data_append, String.data_append] at hdata
  exact String.ext (List.append_cancel_left hdata)

/-- C10 witness: the theorem applied to a concrete document whose content
carries surrounding whitespace. -/
theorem format_context_strips_content_witness :
    pyStrip docWs2.page_content ≠ docWs2.page_content
    ∧ (RAGChain.format_context [docWs2]
        = "[Source 1: " ++ docWs2.metadataGet "source" "Unknown" ++ "]\n"
            ++ pyStrip docWs2.page_content
      ∧ RAGChain.format_context [docWs2]
        ≠ "[Source 1: " ++ docWs2.metadataGet "source" "Unknown" ++ "]\n"
            ++ docWs2.page_content) :=
  ⟨by decide, format_context_strips_content docWs2 (by decide)⟩

/-- C4: in every `sources` entry assembled by `RAGChain.query`, the content is
the page content itself when it has at most 200 characters and its first 200
characters followed by the 3-character suffix "..." when longer, and the
source is the metadata "source" value when present and "Unknown" otherwise.
The character-list form of the content makes the truncation exact:
`take 200` of the stored content plus the conditional ellipsis. -/
theorem sourceEntry_truncation (doc : Document) :
    (RAGChain.sourceEntry doc).content.data
        = doc.page_content.data.take 200
          ++ (if doc.page_content.data.length ≤ 200 then ([] : List Char)
              else ("..." : String).data)
    ∧ ("..." : String).length = 3
    ∧ (RAGChain.sourceEntry doc).source
        = (doc.metadata.lookup "source").getD "Unknown" := by
  refine ⟨?_, rfl, ?_⟩
  · have hlen : doc.page_content.length = doc.page_content.data.length := rfl
    by_cases h : doc.page_content.length > 200
    · rw [if_neg (by omega)]
      show (if doc.page_content.length > 200 then pySlice doc.page_content 200 ++ "..."
          else doc.page_content).data = _
      rw [if_pos h, String.data_append]
      rfl
    · rw [if_pos (by omega)]
      show (if doc.page_content.length > 200 then pySlice doc.page_content 200 ++ "..."
          else doc.page_content).data = _
      rw [if_neg h, List.append_nil, List.take_of_length_le (by omega)]
  · show Document.metadataGet doc "source" "Unknown" = _
    unfold Document.metadataGet
    cases doc.metadata.lookup "source" <;> simp [Option.getD]

/-- C5 counterexample: the claim requires every `k ≤ 0` to fail with
`InvalidArgument` before any I/O, but the code substitutes the configured
top-K for a falsy `k = 0` and proceeds: against a concrete backend the call
returns a normal result where the spec-side model fails. -/
theorem similarity_search_k_zero_no_error :
    ChromaVectorStore.similarity_search_with_score backend0 (some 0)
        = [(doc0, 1)]
    ∧ kValidatedSpec (some 0) = Except.error RagError.invalidArgument := by
  constructor
  · rfl
  · rfl

/-- C5 amended: when `k` is unset it defaults to the configured top-K; a
supplied `k = 0` is falsy in Python's `or` and is silently replaced by the
same default; every nonzero `k`, including negative values, is forwarded to
the backend unvalidated — no `InvalidArgument` is raised before the backend
call. -/
theorem similarity_search_k_handling
    (backend : Int → List (Document × ℚ)) (v : Int) (hv : v ≠ 0) :
    ChromaVectorStore.similarity_search_with_score backend none
        = backend RETRIEVAL_TOP_K
    ∧ ChromaVectorStore.similarity_search_with_score backend (some 0)
        = backend RETRIEVAL_TOP_K
    ∧ ChromaVectorStore.similarity_search_with_score backend (some v)
        = backend v := by
  refine ⟨rfl, rfl, ?_⟩
  simp [ChromaVectorStore.similarity_search_with_score, pyOrInt, hv]

/-- C5 amended witness: the theorem instantiated at the concrete backend stub
and `k = -1`; the negative value reaches the backend unchanged. -/
theorem similarity_search_k_handling_witness :
    (-1 : Int) ≠ 0
    ∧ (ChromaVectorStore.similarity_search_with_score backend0 none
        = backend0 RETRIEVAL_TOP_K
      ∧ ChromaVectorStore.similarity_search_with_score backend0 (some 0)
        = backend0 RETRIEVAL_TOP_K
      ∧ ChromaVectorStore.similarity_search_with_score backend0 (some (-1))
        = backend0 (-1)) :=
  ⟨by decide, similarity_search_k_handling backend0 (-1) (by decide)⟩

/-- C6: `create_vector_store` returns the Pinecone variant exactly when the
lowercased configured backend-type string is "pinecone", the Chroma variant
exactly when it is "chroma", and fails with the `ValueError` the spec calls
`ConfigurationError` for every other string — the raise is the sole statement
of the fallback branch, so nothing is constructed, and no silent default is
returned. -/
theorem create_vector_store_cases (s : String) :
    (VectorStoreFactory.create_vector_store s = Except.ok VectorStoreKind.pinecone
      ↔ pyLower s = "pinecone")
    ∧ (VectorStoreFactory.create_vector_store s = Except.ok VectorStoreKind.chroma
      ↔ pyLower s = "chroma")
    ∧ (pyLower s ≠ "pinecone" → pyLower s ≠ "chroma" →
        VectorStoreFactory.create_vector_store s
          = Except.error ("Unsupported vector store type: " ++ pyLower s
              ++ ". Supported types: pinecone, chroma")) := by
  by_cases h1 : pyLower s = "pinecone"
  · refine ⟨?_, ?_, ?_⟩
    · simp [VectorStoreFactory.create_vector_store, h1]
    · simp [VectorStoreFactory.create_vector_store, h1]
    · intro hc _
      exact absurd h1 hc
  · by_cases h2 : pyLower s = "chroma"
    · refine ⟨?_, ?_, ?_⟩
      · simp [VectorStoreFactory.create_vector_store, h1, h2]
      · simp [VectorStoreFactory.create_vector_store, h1, h2]
      · intro _ hc
        exact absurd h2 hc
    · refine ⟨?_, ?_, ?_⟩
      · simp [VectorStoreFactory.create_vector_store, h1, h2]
      · simp [VectorStoreFactory.create_vector_store, h1, h2]
      · intro _ _
        simp [VectorStoreFactory.create_vector_store, h1, h2]

/-- C6 witness: an unsupported backend-type string is rejected with the
enumerating error message. -/
theorem create_vector_store_cases_witness :
    pyLower "redis" ≠ "pinecone"
    ∧ pyLower "redis" ≠ "chroma"
    ∧ VectorStoreFactory.create_vector_store "redis"
        = Except.error "Unsupported vector store type: redis. Supported types: pinecone, chroma" := by
  refine ⟨by decide, by decide, ?_⟩
  have h := (create_vector_store_cases "redis").2.2 (by decide) (by decide)
  rw [h]
  rfl

/-- C7: with an empty context string, `format_prompt` produces the prompt
consisting only of system header, system prompt, user turn and assistant
trailer — no context section; with a non-empty context string the prompt
carries the section `"Context:\n"` followed by that context verbatim, as the
character-level infix occurrence exhibits. -/
theorem format_prompt_context_section (sys msg ctx : String) (hc : ctx ≠ "") :
    LLMHandler.format_prompt sys msg ""
        = promptSystemHeader ++ sys ++ promptUserHeader ++ msg
            ++ promptAssistantHeader
    ∧ LLMHandler.format_prompt sys msg ctx
        = promptSystemHeader ++ sys ++ "\n\nContext:\n" ++ ctx
            ++ promptUserHeader ++ msg ++ promptAssistantHeader
    ∧ ∃ pre post, pre ++ ("Context:\n" ++ ctx).data ++ post
        = (LLMHandler.format_prompt sys msg ctx).data := by
  have hempty : LLMHandler.format_prompt sys msg ""
      = promptSystemHeader ++ sys ++ promptUserHeader ++ msg
          ++ promptAssistantHeader := by
    unfold LLMHandler.format_prompt
    rw [if_neg (by simp)]
    rfl
  have hfull : LLMHandler.format_prompt sys msg ctx
      = promptSystemHeader ++ sys ++ "\n\nContext:\n" ++ ctx
          ++ promptUserHeader ++ msg ++ promptAssistantHeader := by
    unfold LLMHandler.format_prompt
    rw [if_pos hc]
    rfl
  refine ⟨hempty, hfull, ?_⟩
  refine ⟨(promptSystemHeader ++ sys ++ "\n\n").data,
    (promptUserHeader ++ msg ++ promptAssistantHeader).data, ?_⟩
  rw [hfull]
  simp only [String.data_append, List.append_assoc]
  rfl

/-- C7 witness: the theorem instantiated at concrete strings, the spec's §8
scenario. -/
theorem format_prompt_context_section_witness :
    ("ctx" : String) ≠ ""
    ∧ (LLMHandler.format_prompt "sys" "hello" ""
        = promptSystemHeader ++ "sys" ++ promptUserHeader ++ "hello"
            ++ promptAssistantHeader
      ∧ LLMHandler.format_prompt "sys" "hello" "ctx"
        = promptSystemHeader ++ "sys" ++ "\n\nContext:\n" ++ "ctx"
            ++ promptUserHeader ++ "hello" ++ promptAssistantHeader
      ∧ ∃ pre post, pre ++ ("Context:\n" ++ "ctx").data ++ post
        = (LLMHandler.format_prompt "sys" "hello" "ctx").data) :=
  ⟨by decide, format_prompt_context_section "sys" "hello" "ctx" (by decide)⟩

/-- C8 counterexample: the claim requires every caller-supplied temperature to
override the instance default for the call, but a supplied `0.0` is falsy in
`temperature or self.temperature`, so the generation kwargs keep the default
`0.7` instead of the supplied `0.0`. -/
theorem generation_kwargs_zero_not_overridden :
    (llm0.generation_kwargs none (some 0)).temperature = LLM_TEMPERATURE
    ∧ LLM_TEMPERATURE ≠ 0
    ∧ (llm0.generation_kwargs (some 0) none).max_new_tokens = LLM_MAX_TOKENS
    ∧ LLM_MAX_TOKENS ≠ 0 := by
  refine ⟨?_, ?_, ?_, ?_⟩
  · show pyOrRat (some 0) llm0.temperature = LLM_TEMPERATURE
    simp [pyOrRat, llm0]
  · unfold LLM_TEMPERATURE
    norm_num
  · show pyOrInt (some 0) llm0.max_tokens = LLM_MAX_TOKENS
    simp [pyOrInt, llm0]
  · decide

/-- C8 amended: caller-supplied nonzero `max_tokens` and `temperature`
override the instance defaults in the generation kwargs of that call only
(`top_p` always comes from the instance), a supplied zero falls back to the
instance default by Python falsiness, and the handler state returned by
`generate_response` is the unchanged input state. -/
theorem generate_response_overrides (h : LLMHandler)
    (pipe : String → GenerationKwargs → String) (prompt : String)
    (m : Int) (t : ℚ) (hm : m ≠ 0) (ht : t ≠ 0) :
    (h.generate_response pipe prompt (some m) (some t)).2 = h
    ∧ (h.generation_kwargs (some m) (some t)).max_new_tokens = m
    ∧ (h.generation_kwargs (some m) (some t)).temperature = t
    ∧ (h.generation_kwargs (some m) (some t)).top_p = h.top_p
    ∧ (h.generate_response pipe prompt none none).2 = h
    ∧ (h.generation_kwargs none none).max_new_tokens = h.max_tokens
    ∧ (h.generation_kwargs none none).temperature = h.temperature := by
  refine ⟨rfl, ?_, ?_, rfl, rfl, rfl, rfl⟩
  · show pyOrInt (some m) h.max_tokens = m
    simp [pyOrInt, hm]
  · show pyOrRat (some t) h.temperature = t
    simp [pyOrRat, ht]

/-- C8 amended witness: the theorem instantiated at the configured handler
state, the echo pipeline stub, and the overrides `max_tokens = 100`,
`temperature = 1/2`. -/
theorem generate_response_overrides_witness :
    (100 : Int) ≠ 0
    ∧ (1/2 : ℚ) ≠ 0
    ∧ ((llm0.generate_response pipe0 "p" (some 100) (some (1/2))).2 = llm0
      ∧ (llm0.generation_kwargs (some 100) (some (1/2))).max_new_tokens = 100
      ∧ (llm0.generation_kwargs (some 100) (some (1/2))).temperature = 1/2
      ∧ (llm0.generation_kwargs (some 100) (some (1/2))).top_p = llm0.top_p
      ∧ (llm0.generate_response pipe0 "p" none none).2 = llm0
      ∧ (llm0.generation_kwargs none none).max_new_tokens = llm0.max_tokens
      ∧ (llm0.generation_kwargs none none).temperature = llm0.temperature) :=
  ⟨by decide, by norm_num,
    generate_response_overrides llm0 pipe0 "p" 100 (1/2) (by decide) (by norm_num)⟩

/-- C9: in every result of `RAGChain.query`, `num_sources` equals the length
of the `sources` list, which equals the number of documents that passed the
similarity-threshold filter; `sources` is the filtered document list mapped
in order through the source-entry construction; and `num_sources` is zero
exactly when the context is the literal no-information sentence. -/
theorem query_sources_invariant (llm : LLMHandler)
    (pipe : String → GenerationKwargs → String) (sp q : String)
    (results : List (Document × ℚ)) (t : ℚ) (mt : Option Int)
    (temp : Option ℚ) :
    (RAGChain.query llm pipe sp q results t mt temp).num_sources
        = (RAGChain.query llm pipe sp q results t mt temp).sources.length
    ∧ (RAGChain.query llm pipe sp q results t mt temp).sources
        = (RAGChain.retrieve_context results t).map RAGChain.sourceEntry
    ∧ (RAGChain.query llm pipe sp q results t mt temp).sources.length
        = (RAGChain.retrieve_context results t).length
    ∧ ((RAGChain.query llm pipe sp q results t mt temp).num_sources = 0
        ↔ (RAGChain.query llm pipe sp q results t mt temp).context
            = "No relevant information found in the course materials.") := by
  refine ⟨rfl, rfl, List.length_map _ _, ?_⟩
  show ((RAGChain.retrieve_context results t).map RAGChain.sourceEntry).length = 0
    ↔ RAGChain.format_context (RAGChain.retrieve_context results t)
        = "No relevant information found in the course materials."
  rw [List.length_map, List.length_eq_zero]
  constructor
  · intro h
    rw [h]
    rfl
  · intro h
    cases hr : RAGChain.retrieve_context results t with
    | nil => rfl
    | cons d ds =>
      rw [hr] at h
      exact absurd h (format_context_cons_ne_noinfo d ds)
